import Mathlib

/-
Verification of the library-catalog data-access layer.

The repository has three variants of the same CRUD layer:
- ej3a1.py : raw sqlite3 CRUD (tables autores / libros); `actualizar_libro`
  builds its UPDATE statement by f-string interpolation, so we model the
  generated SQL text together with a lexer/parser/executor for the UPDATE
  statements that this code can generate (SQLite semantics: single-quoted
  string literals with '' escaping, column affinity on storage and
  comparison).
- ej3a4.py : MongoDB document CRUD (collections autores / libros), ObjectId
  modelled as a Nat drawn from a fresh-id counter.
- ej3b2.py : Flask + SQLAlchemy REST layer (authors / books).

Functions keep the names of the source, suffixed 1 (ej3a1), 4 (ej3a4),
B (ej3b2).  Python functions that fall off the end return None; we model
that return value as `none` / `Option`.
-/

section Helpers

variable {α : Type}

/-- Remove the first element satisfying `p` (semantics of `delete_one` /
ORM delete of a primary-key row). -/
def removeFirst (p : α → Bool) : List α → List α
  | [] => []
  | x :: xs => if p x then xs else x :: removeFirst p xs

/-- Replace the first element satisfying `p` by `c` (semantics of
`update_one` / ORM update of a primary-key row). -/
def replaceFirst (p : α → Bool) (c : α) : List α → List α
  | [] => []
  | x :: xs => if p x then c :: xs else x :: replaceFirst p c xs

end Helpers

/-! ## SQL variant (src/3a/ej3a1.py) -/

/-- An SQLite storage value: integer, text or NULL. -/
inductive SVal where
  | intv (n : Int)
  | textv (s : String)
  | nullv
deriving DecidableEq

/-- Digit run to number; `none` when empty or a non-digit occurs. -/
def digitsToNatAux (acc : Nat) : List Char → Option Nat
  | [] => some acc
  | c :: cs =>
    if c.isDigit then digitsToNatAux (acc * 10 + (c.toNat - '0'.toNat)) cs
    else none

/-- Parse a non-empty digit run. -/
def digitsToNat : List Char → Option Nat
  | [] => none
  | cs => digitsToNatAux 0 cs

/-- Well-formed integer text (optional minus sign, then digits). -/
def textToInt (s : String) : Option Int :=
  match s.data with
  | '-' :: cs => (digitsToNat cs).map (fun n => -(n : Int))
  | cs => (digitsToNat cs).map (fun n => (n : Int))

/-- INTEGER column affinity: well-formed integer text is stored as an
integer, everything else unchanged. -/
def intAffinity : SVal → SVal
  | .textv s =>
    match textToInt s with
    | some n => .intv n
    | none => .textv s
  | v => v

/-- TEXT column affinity: numeric values are stored as their text form. -/
def textAffinity : SVal → SVal
  | .intv n => .textv (toString n)
  | v => v

/-- A row of the `libros` table (id INTEGER PRIMARY KEY, titulo TEXT,
anio INTEGER, autor_id INTEGER). -/
structure SLibro where
  id : Int
  titulo : SVal
  anio : SVal
  autor_id : SVal
deriving DecidableEq

/-- A row of the `autores` table. -/
structure SAutor where
  id : Int
  nombre : String
deriving DecidableEq

/-- The sqlite database state: the two tables plus the AUTOINCREMENT
counters. -/
structure SDB where
  autores : List SAutor
  libros : List SLibro
  nextAutorId : Int
  nextLibroId : Int
deriving DecidableEq

/-- Read a column of a `libros` row; `none` = no such column. -/
def SLibro.getCol (r : SLibro) : String → Option SVal
  | "id" => some (.intv r.id)
  | "titulo" => some r.titulo
  | "anio" => some r.anio
  | "autor_id" => some r.autor_id
  | _ => none

/-- Assign a column of a `libros` row, applying column affinity;
`none` = no such column, or a non-integer value for the INTEGER PRIMARY
KEY (datatype mismatch). -/
def SLibro.setCol (r : SLibro) (c : String) (v : SVal) : Option SLibro :=
  if c = "titulo" then some { r with titulo := textAffinity v }
  else if c = "anio" then some { r with anio := intAffinity v }
  else if c = "autor_id" then some { r with autor_id := intAffinity v }
  else if c = "id" then
    match intAffinity v with
    | .intv n => some { r with id := n }
    | _ => none
  else none

/-- Evaluate `col = literal` on a row: affinity of the column is applied
to the literal, and NULL compares false against everything. -/
def SLibro.matchesCond (r : SLibro) (c : String) (v : SVal) : Option Bool :=
  match r.getCol c with
  | none => none
  | some colv =>
    let v' := if c = "titulo" then textAffinity v else intAffinity v
    some (!(colv == SVal.nullv) && !(v' == SVal.nullv) && colv == v')

/-! ### SQL lexer (single-quoted strings with '' escaping, as in SQLite) -/

/-- Tokens of the fragment of SQL that `actualizar_libro` can generate. -/
inductive Tok where
  | word (s : String)
  | strlit (s : String)
  | numlit (s : String)
  | comma
  | eq
  | dot
deriving DecidableEq

def isWordChar (c : Char) : Bool := c.isAlpha || c.isDigit || c = '_'

/-- Scan an identifier tail. -/
def scanWord : List Char → String × List Char
  | [] => ("", [])
  | c :: cs =>
    if isWordChar c then
      let p := scanWord cs
      (String.singleton c ++ p.1, p.2)
    else ("", c :: cs)

/-- Scan a string literal body after the opening quote; `''` stands for a
single quote; an unterminated literal is a lex error (`none`). -/
def scanStr : List Char → Option (String × List Char)
  | [] => none
  | '\'' :: '\'' :: cs =>
    match scanStr cs with
    | none => none
    | some p => some (String.singleton '\'' ++ p.1, p.2)
  | '\'' :: cs => some ("", cs)
  | c :: cs =>
    match scanStr cs with
    | none => none
    | some p => some (String.singleton c ++ p.1, p.2)

/-- Fuel-driven lexer; each step consumes at least one character, so
fuel = input length is always enough. -/
def tokenizeF : Nat → List Char → Option (List Tok)
  | _, [] => some []
  | 0, _ :: _ => none
  | fuel + 1, c :: cs =>
    if c = ' ' || c = '\n' || c = '\t' || c = '\r' then tokenizeF fuel cs
    else if c = ',' then (tokenizeF fuel cs).map (Tok.comma :: ·)
    else if c = '=' then (tokenizeF fuel cs).map (Tok.eq :: ·)
    else if c = '.' then (tokenizeF fuel cs).map (Tok.dot :: ·)
    else if c = '\'' then
      match scanStr cs with
      | none => none
      | some (s, rest) => (tokenizeF fuel rest).map (Tok.strlit s :: ·)
    else if c.isAlpha || c = '_' then
      let p := scanWord cs
      (tokenizeF fuel p.2).map (Tok.word (String.singleton c ++ p.1) :: ·)
    else if c.isDigit then
      let p := scanWord cs
      (tokenizeF fuel p.2).map (Tok.numlit (String.singleton c ++ p.1) :: ·)
    else none

/-- Lex an SQL text; `none` models sqlite3 raising "unrecognized token". -/
def tokenize (s : String) : Option (List Tok) := tokenizeF s.length s.data

/-! ### SQL parser for the generated UPDATE statements -/

/-- One `col = value` item of a SET clause. -/
structure SAssign where
  col : String
  val : SVal
deriving DecidableEq

/-- A parsed `UPDATE libros SET ... [WHERE col = lit]` statement. -/
structure UpdStmt where
  assigns : List SAssign
  cond : Option (String × SVal)
deriving DecidableEq

/-- Parse a column reference, optionally qualified by the table name. -/
def parseCol : List Tok → Option (String × List Tok)
  | .word t :: .dot :: .word c :: rest =>
    if t = "libros" then some (c, rest) else none
  | .word c :: rest =>
    if c = "WHERE" then none else some (c, rest)
  | _ => none

/-- Value of a literal token. -/
def litVal : Tok → Option SVal
  | .strlit s => some (.textv s)
  | .numlit s =>
    some (match textToInt s with
          | some n => SVal.intv n
          | none => SVal.textv s)
  | _ => none

/-- Parse one `col = literal` assignment. -/
def parseAssign (ts : List Tok) : Option (SAssign × List Tok) :=
  match parseCol ts with
  | none => none
  | some (c, .eq :: t :: rest) =>
    match litVal t with
    | some v => some (⟨c, v⟩, rest)
    | none => none
  | some _ => none

/-- Parse a comma-separated, non-empty assignment list. -/
def parseAssigns : Nat → List Tok → Option (List SAssign × List Tok)
  | 0, _ => none
  | fuel + 1, ts =>
    match parseAssign ts with
    | none => none
    | some (a, .comma :: rest) =>
      match parseAssigns fuel rest with
      | none => none
      | some (more, r) => some (a :: more, r)
    | some (a, rest) => some ([a], rest)

/-- Parse a trailing `WHERE col = literal` clause. -/
def parseWhere : List Tok → Option (String × SVal)
  | .word w :: rest =>
    if w = "WHERE" then
      match parseCol rest with
      | some (c, .eq :: t :: []) =>
        match litVal t with
        | some v => some (c, v)
        | none => none
      | _ => none
    else none
  | _ => none

/-- Parse an `UPDATE libros SET ...` statement; `none` models sqlite3
raising a syntax error. -/
def parseUpdate (ts : List Tok) : Option UpdStmt :=
  match ts with
  | .word u :: .word tbl :: .word s :: rest =>
    if u = "UPDATE" && tbl = "libros" && s = "SET" then
      match parseAssigns (rest.length + 1) rest with
      | none => none
      | some (als, []) => some ⟨als, none⟩
      | some (als, remaining) =>
        match parseWhere remaining with
        | some cv => some ⟨als, some cv⟩
        | none => none
    else none
  | _ => none

/-! ### SQL execution -/

/-- Apply the SET-clause assignments to one row, left to right. -/
def applyAssigns (r : SLibro) : List SAssign → Option SLibro
  | [] => some r
  | a :: rest =>
    match r.setCol a.col a.val with
    | none => none
    | some r' => applyAssigns r' rest

/-- Run an UPDATE statement on one row: rows matching the WHERE clause
(all rows when there is none) get the assignments. -/
def updateRow (u : UpdStmt) (r : SLibro) : Option SLibro :=
  match u.cond with
  | none => applyAssigns r u.assigns
  | some (c, v) =>
    match r.matchesCond c v with
    | none => none
    | some true => applyAssigns r u.assigns
    | some false => some r

/-- Run an UPDATE statement on every row of `libros`. -/
def updateRows (u : UpdStmt) : List SLibro → Option (List SLibro)
  | [] => some []
  | r :: rs =>
    match updateRow u r, updateRows u rs with
    | some r', some rs' => some (r' :: rs')
    | _, _ => none

/-- Execute an SQL text against the store: lex, parse, update.  The
`Except.error` results model the sqlite3 exceptions raised by
`cursor.execute`. -/
def executeConsulta (q : String) (db : SDB) : Except String SDB :=
  match tokenize q with
  | none => .error "unrecognized token"
  | some ts =>
    match parseUpdate ts with
    | none => .error "syntax error"
    | some u =>
      match updateRows u db.libros with
      | none => .error "no such column"
      | some ls => .ok { db with libros := ls }

/-! ### ej3a1.py operations -/

/-- The UPDATE text built by `actualizar_libro` (ej3a1.py lines 156-165):
f-string interpolation of the new values, `", "`-joined parts, and no
space before `WHERE`. -/
def buildUpdateConsulta (id_libro : Int) (nuevo_titulo : Option String)
    (nuevo_anio : Option Int) : String :=
  let varUpdates : List String :=
    (match nuevo_titulo with
     | some t => ["titulo = '" ++ t ++ "'"]
     | none => []) ++
    (match nuevo_anio with
     | some a => ["anio = '" ++ toString a ++ "'"]
     | none => [])
  let consulta := "UPDATE libros SET "
  if varUpdates.isEmpty then consulta
  else
    consulta ++ String.intercalate ", " varUpdates ++
      "WHERE libros.id = '" ++ toString id_libro ++ "'"

/-- ej3a1 `actualizar_libro`: build the interpolated UPDATE text and
execute it.  The Python function returns None; an `Except.error` result
models the sqlite3 exception propagating to the caller. -/
def actualizarLibro1 (db : SDB) (id_libro : Int) (nuevo_titulo : Option String)
    (nuevo_anio : Option Int) : Except String SDB :=
  executeConsulta (buildUpdateConsulta id_libro nuevo_titulo nuevo_anio) db

/-- Fresh `autores` rows for a list of names, ids drawn consecutively
from the AUTOINCREMENT counter. -/
def nuevasFilasAutores (base : Int) : List String → List SAutor
  | [] => []
  | n :: ns => ⟨base, n⟩ :: nuevasFilasAutores (base + 1) ns

/-- A bound parameter that may be NULL. -/
def ovalToSVal : Option Int → SVal
  | some n => .intv n
  | none => .nullv

/-- Fresh `libros` rows for a list of (titulo, anio, autor_id) tuples. -/
def nuevasFilasLibros (base : Int) : List (String × Option Int × Option Int) → List SLibro
  | [] => []
  | e :: es => ⟨base, .textv e.1, ovalToSVal e.2.1, ovalToSVal e.2.2⟩ :: nuevasFilasLibros (base + 1) es

/-- ej3a1 `insertar_autores`: parameterised executemany INSERT; the
Python function returns None (first component). -/
def insertarAutores1 (db : SDB) (autores : List String) : Option (List Int) × SDB :=
  (none,
   { db with
     autores := db.autores ++ nuevasFilasAutores db.nextAutorId autores,
     nextAutorId := db.nextAutorId + autores.length })

/-- ej3a1 `insertar_libros`: parameterised executemany INSERT; no check
that `autor_id` references an existing author (the declared foreign key
is not enforced).  Returns None. -/
def insertarLibros1 (db : SDB) (libros : List (String × Option Int × Option Int)) :
    Option (List Int) × SDB :=
  (none,
   { db with
     libros := db.libros ++ nuevasFilasLibros db.nextLibroId libros,
     nextLibroId := db.nextLibroId + libros.length })

/-- Join rows for `buscar_libros_por_autor`: books of every author whose
`nombre` is the searched name. -/
def filasPorAutor (db : SDB) (nombre_autor : String) : List SAutor → List (SVal × SVal)
  | [] => []
  | a :: rest =>
    (if a.nombre = nombre_autor then
      (db.libros.filter (fun b => b.autor_id == SVal.intv a.id)).map
        (fun b => (b.titulo, b.anio))
     else []) ++ filasPorAutor db nombre_autor rest

/-- ej3a1 `buscar_libros_por_autor`: `if resultados: return resultados`
— the function returns the row list when non-empty and falls off the
end (None) otherwise. -/
def buscarLibrosPorAutor1 (db : SDB) (nombre_autor : String) :
    Option (List (SVal × SVal)) :=
  let resultados := filasPorAutor db nombre_autor db.autores
  if resultados.isEmpty then none else some resultados

/-- ej3a1 `eliminar_libro`: parameterised DELETE of every row with the
given id; the Python function returns None. -/
def eliminarLibro1 (db : SDB) (id_libro : Int) : Option Bool × SDB :=
  (none, { db with libros := db.libros.filter (fun b => !(b.id == id_libro)) })

/-- ej3a1 `ejemplo_transaccion`: BEGIN; INSERT author 'J.R.R. Tolkien';
INSERT book ('El hobbit', 1937, autor_id 4); COMMIT; on any sqlite error
the whole transaction is rolled back and the error is printed.  The two
booleans say whether the respective INSERT fails; the function returns
None either way. -/
def ejemploTransaccion1 (db : SDB) (falloAutor falloLibro : Bool) :
    Option Bool × SDB :=
  if falloAutor then (none, db)
  else
    let db1 : SDB :=
      { db with
        autores := db.autores ++ [⟨db.nextAutorId, "J.R.R. Tolkien"⟩],
        nextAutorId := db.nextAutorId + 1 }
    if falloLibro then (none, db)
    else
      (none,
       { db1 with
         libros := db1.libros ++ [⟨db1.nextLibroId, .textv "El hobbit", .intv 1937, .intv 4⟩],
         nextLibroId := db1.nextLibroId + 1 })

/-! ## Document variant (src/3a/ej3a4.py) -/

/-- A document of the `autores` collection; the ObjectId is modelled as a
Nat drawn from a fresh-id counter. -/
structure MAutor where
  id : Nat
  nombre : String
deriving DecidableEq

/-- A document of the `libros` collection. -/
structure MLibro where
  id : Nat
  titulo : String
  anio : Int
  autor_id : Nat
deriving DecidableEq

/-- The MongoDB database state: the two collections plus the ObjectId
generator. -/
structure MDB where
  autores : List MAutor
  libros : List MLibro
  nextId : Nat
deriving DecidableEq

/-- Fresh `autores` documents for a list of names (insert_many: one
document per name, consecutive fresh ids). -/
def nuevosAutores (base : Nat) : List String → List MAutor
  | [] => []
  | n :: ns => ⟨base, n⟩ :: nuevosAutores (base + 1) ns

/-- ej3a4 `insertar_autores`: insert_many one document per name and
return the inserted ids in insertion order. -/
def insertarAutores4 (db : MDB) (autores : List String) : List Nat × MDB :=
  let nuevos := nuevosAutores db.nextId autores
  (nuevos.map (·.id),
   { db with autores := db.autores ++ nuevos, nextId := db.nextId + autores.length })

/-- Fresh `libros` documents for a list of (titulo, anio, autor_id)
tuples. -/
def nuevosLibros (base : Nat) : List (String × Int × Nat) → List MLibro
  | [] => []
  | e :: es => ⟨base, e.1, e.2.1, e.2.2⟩ :: nuevosLibros (base + 1) es

/-- ej3a4 `insertar_libros`: insert_many one document per tuple — no
check that `autor_id` references an existing author — and return the
inserted ids in insertion order. -/
def insertarLibros4 (db : MDB) (libros : List (String × Int × Nat)) : List Nat × MDB :=
  let nuevos := nuevosLibros db.nextId libros
  (nuevos.map (·.id),
   { db with libros := db.libros ++ nuevos, nextId := db.nextId + libros.length })

/-- Stable insertion into a list sorted ascending by `anio`. -/
def sortInsertAnio (b : MLibro) : List MLibro → List MLibro
  | [] => [b]
  | x :: xs => if b.anio ≤ x.anio then b :: x :: xs else x :: sortInsertAnio b xs

/-- The `$sort {anio: 1}` aggregation stage. -/
def sortByAnio : List MLibro → List MLibro
  | [] => []
  | x :: xs => sortInsertAnio x (sortByAnio xs)

/-- ej3a4 `buscar_libros_por_autor`: find_one the author by exact name
(`[]` when absent), then aggregate the author's books sorted by year. -/
def buscarLibrosPorAutor4 (db : MDB) (nombre_autor : String) : List (String × Int) :=
  match db.autores.find? (fun a => a.nombre == nombre_autor) with
  | none => []
  | some autor =>
    (sortByAnio (db.libros.filter (fun b => b.autor_id == autor.id))).map
      (fun b => (b.titulo, b.anio))

/-- ej3a4 `actualizar_libro`: build the `$set` dictionary from the
non-None arguments; with an empty dictionary return True at once;
otherwise update_one on `_id` and report `modified_count > 0` (a
document equal to its updated form counts as not modified). -/
def actualizarLibro4 (db : MDB) (id_libro : Nat) (nuevo_titulo : Option String)
    (nuevo_anio : Option Int) : Bool × MDB :=
  if nuevo_titulo.isNone && nuevo_anio.isNone then (true, db)
  else
    match db.libros.find? (fun b => b.id == id_libro) with
    | none => (false, db)
    | some b =>
      let b' : MLibro :=
        { b with
          titulo := nuevo_titulo.getD b.titulo,
          anio := nuevo_anio.getD b.anio }
      if b' == b then (false, db)
      else (true, { db with libros := replaceFirst (fun x => x.id == id_libro) b' db.libros })

/-- ej3a4 `eliminar_libro`: delete_one on `_id` and report
`deleted_count > 0`. -/
def eliminarLibro4 (db : MDB) (id_libro : Nat) : Bool × MDB :=
  match db.libros.find? (fun b => b.id == id_libro) with
  | none => (false, db)
  | some _ => (true, { db with libros := removeFirst (fun b => b.id == id_libro) db.libros })

/-- Failure oracle for `ejemplo_transaccion` in ej3a4: whether insert_one
of the author raises, whether insert_many of the books raises after
inserting a prefix of the documents, and whether the compensating
cleanup deletes themselves raise (they are wrapped in a bare
`except: pass`). -/
structure MOracle where
  falloAutor : Bool
  falloLibros : Option Nat
  falloLimpieza : Bool
deriving DecidableEq

/-- ej3a4 `ejemplo_transaccion`: insert one author then insert_many two
books referencing it; returns True on success; on an exception it tries
compensating deletes (delete_one of the author, delete_many of its
books) and returns False. -/
def ejemploTransaccion4 (db : MDB) (o : MOracle) : Bool × MDB :=
  if o.falloAutor then (false, db)
  else
    let autor_id := db.nextId
    let db1 : MDB :=
      { db with
        autores := db.autores ++ [⟨autor_id, "J.R.R. Tolkien"⟩],
        nextId := db.nextId + 1 }
    let nuevosDocs : List MLibro :=
      [⟨db1.nextId, "El hobbit", 1937, autor_id⟩,
       ⟨db1.nextId + 1, "El Señor de los Anillos", 1954, autor_id⟩]
    match o.falloLibros with
    | none =>
      (true, { db1 with libros := db1.libros ++ nuevosDocs, nextId := db1.nextId + 2 })
    | some k =>
      let db2 : MDB :=
        { db1 with libros := db1.libros ++ nuevosDocs.take k, nextId := db1.nextId + min k 2 }
      if o.falloLimpieza then (false, db2)
      else
        (false,
         { db2 with
           autores := removeFirst (fun a => a.id == autor_id) db2.autores,
           libros := db2.libros.filter (fun b => !(b.autor_id == autor_id)) })

/-! ## REST / ORM variant (src/3b/ej3b2.py) -/

/-- An `authors` row of the SQLAlchemy model. -/
structure BAuthor where
  id : Nat
  name : String
deriving DecidableEq

/-- A `books` row of the SQLAlchemy model (`year` nullable). -/
structure BBook where
  id : Nat
  title : String
  year : Option Int
  author_id : Nat
deriving DecidableEq

/-- The ORM-backed database state. -/
structure BDB where
  authors : List BAuthor
  books : List BBook
  nextAuthorId : Nat
  nextBookId : Nat
deriving DecidableEq

/-- A JSON response body, kept structural: which records were serialised
with `to_dict`. -/
inductive Body where
  | empty
  | notFound
  | authorJson (a : BAuthor)
  | authorBooksJson (a : BAuthor) (books : List BBook)
  | bookJson (b : BBook)
  | authorsJson (l : List BAuthor)
  | booksJson (l : List BBook)
deriving DecidableEq

/-- An HTTP response: status code and body. -/
structure HttpResp where
  status : Nat
  body : Body
deriving DecidableEq

/-- GET /authors. -/
def getAuthorsB (db : BDB) : HttpResp := ⟨200, .authorsJson db.authors⟩

/-- POST /authors: create the author and answer 201 with its JSON. -/
def addAuthorB (db : BDB) (name : String) : HttpResp × BDB :=
  let a : BAuthor := ⟨db.nextAuthorId, name⟩
  (⟨201, .authorJson a⟩,
   { db with authors := db.authors ++ [a], nextAuthorId := db.nextAuthorId + 1 })

/-- GET /authors/(author_id): get_or_404, then the author plus its book
list. -/
def getAuthorB (db : BDB) (author_id : Nat) : HttpResp :=
  match db.authors.find? (fun a => a.id == author_id) with
  | none => ⟨404, .notFound⟩
  | some a => ⟨200, .authorBooksJson a (db.books.filter (fun b => b.author_id == a.id))⟩

/-- GET /books. -/
def getBooksB (db : BDB) : HttpResp := ⟨200, .booksJson db.books⟩

/-- POST /books: get_or_404 on the referenced author (rejecting a
dangling `author_id` with 404), then create the book and answer 201. -/
def addBookB (db : BDB) (title : String) (author_id : Nat) (year : Option Int) :
    HttpResp × BDB :=
  match db.authors.find? (fun a => a.id == author_id) with
  | none => (⟨404, .notFound⟩, db)
  | some _ =>
    let b : BBook := ⟨db.nextBookId, title, year, author_id⟩
    (⟨201, .bookJson b⟩,
     { db with books := db.books ++ [b], nextBookId := db.nextBookId + 1 })

/-- GET /books/(book_id): get_or_404 then the book's JSON. -/
def getBookB (db : BDB) (book_id : Nat) : HttpResp :=
  match db.books.find? (fun b => b.id == book_id) with
  | none => ⟨404, .notFound⟩
  | some b => ⟨200, .bookJson b⟩

/-- DELETE /books/(book_id): get_or_404, delete, 204 with empty body. -/
def deleteBookB (db : BDB) (book_id : Nat) : HttpResp × BDB :=
  match db.books.find? (fun b => b.id == book_id) with
  | none => (⟨404, .notFound⟩, db)
  | some _ =>
    (⟨204, .empty⟩, { db with books := removeFirst (fun b => b.id == book_id) db.books })

/-- PUT /books/(book_id).  `dataTitle`/`dataYear` model the JSON body:
`none` = key absent, `some none` = key present with value null,
`some (some v)` = key present with value v.  The handler tests key
presence only (`if 'title' in data`), so a null value is assigned;
a null title then violates the NOT NULL constraint at commit, which
surfaces as an unhandled error (500) with the transaction rolled back.
`appliedBookUpdate` is the pair of field assignments the handler
performs: a field is assigned exactly when its key is present. -/
def appliedBookUpdate (b : BBook) (dataTitle : Option (Option String))
    (dataYear : Option (Option Int)) : BBook :=
  { b with
    title := match dataTitle with
             | some (some t) => t
             | _ => b.title,
    year := match dataYear with
            | some y => y
            | none => b.year }

/-- PUT /books/(book_id): get_or_404, apply the key-presence field
assignments, commit, and answer 200 with the updated book. -/
def updateBookB (db : BDB) (book_id : Nat) (dataTitle : Option (Option String))
    (dataYear : Option (Option Int)) : HttpResp × BDB :=
  match db.books.find? (fun b => b.id == book_id) with
  | none => (⟨404, .notFound⟩, db)
  | some b =>
    match dataTitle with
    | some none => (⟨500, .empty⟩, db)
    | _ =>
      let b' : BBook := appliedBookUpdate b dataTitle dataYear
      (⟨200, .bookJson b'⟩,
       { db with books := replaceFirst (fun x => x.id == book_id) b' db.books })

/-! ## Concrete stores for counterexamples and witnesses -/

/-- Empty sqlite store right after `crear_tablas`. -/
def sdb0 : SDB := ⟨[], [], 1, 1⟩

/-- A sqlite store with one author and two books. -/
def sdb1 : SDB :=
  ⟨[⟨1, "Ana"⟩],
   [⟨1, .textv "T1", .intv 1999, .intv 1⟩, ⟨2, .textv "T2", .intv 2001, .intv 1⟩],
   2, 3⟩

/-- A sqlite store with one author and no books. -/
def sdb2 : SDB := ⟨[⟨1, "Ana"⟩], [], 2, 1⟩

/-- Empty document store. -/
def mdb0 : MDB := ⟨[], [], 1⟩

/-- A document store with one author and one book. -/
def mdb1 : MDB := ⟨[⟨1, "Ana"⟩], [⟨2, "T1", 1999, 1⟩], 3⟩

/-- Empty ORM store. -/
def bdb0 : BDB := ⟨[], [], 1, 1⟩

/-- An ORM store with one author and one book with a year. -/
def bdb1 : BDB := ⟨[⟨1, "Ana"⟩], [⟨1, "T1", some 1999, 1⟩], 2, 2⟩

/-! ## Auxiliary lemmas -/

section ListLemmas

variable {α : Type}

theorem removeFirst_append_right (p : α → Bool) (l : List α) (a : α)
    (hl : ∀ x ∈ l, p x = false) (ha : p a = true) :
    removeFirst p (l ++ [a]) = l := by
  induction l with
  | nil => simp [removeFirst, ha]
  | cons x xs ih =>
    have hx := hl x (by simp)
    simp only [List.cons_append, removeFirst, hx, Bool.false_eq_true, if_false]
    show x :: removeFirst p (xs ++ [a]) = x :: xs
    rw [ih (fun y hy => hl y (List.mem_cons_of_mem x hy))]

theorem length_removeFirst (p : α → Bool) (l : List α) (b : α)
    (h : l.find? p = some b) : (removeFirst p l).length + 1 = l.length := by
  induction l with
  | nil => simp [List.find?] at h
  | cons x xs ih =>
    by_cases hx : p x
    · simp [removeFirst, hx]
    · rw [List.find?_cons_of_neg xs hx] at h
      simp only [removeFirst, hx, Bool.false_eq_true, if_false, List.length_cons]
      rw [ih h]

theorem find?_removeFirst_key (key : α → Nat) (k : Nat) (l : List α) (b : α)
    (hnd : (l.map key).Nodup) (h : l.find? (fun x => key x == k) = some b) :
    (removeFirst (fun x => key x == k) l).find? (fun x => key x == k) = none := by
  induction l with
  | nil => simp [List.find?] at h
  | cons x xs ih =>
    rw [List.map_cons, List.nodup_cons] at hnd
    by_cases hx : key x = k
    · simp only [removeFirst, hx, beq_self_eq_true, if_true]
      rw [List.find?_eq_none]
      intro y hy
      simp only [beq_eq_false_iff_ne, ne_eq, Bool.not_eq_true, beq_iff_eq]
      intro hyk
      exact hnd.1 (hx ▸ hyk ▸ List.mem_map.mpr ⟨y, hy, rfl⟩)
    · have hx' : (key x == k) = false := by simpa using hx
      rw [List.find?_cons_of_neg xs (by simp [hx'])] at h
      simp only [removeFirst, hx', Bool.false_eq_true, if_false]
      rw [List.find?_cons_of_neg _ (by simp [hx'])]
      exact ih hnd.2 h

theorem replaceFirst_self (p : α → Bool) (l : List α) (b : α)
    (h : l.find? p = some b) : replaceFirst p b l = l := by
  induction l with
  | nil => simp [List.find?] at h
  | cons x xs ih =>
    by_cases hx : p x
    · rw [List.find?_cons_of_pos xs hx] at h
      cases h
      simp [replaceFirst, hx]
    · rw [List.find?_cons_of_neg xs hx] at h
      simp only [replaceFirst, hx, Bool.false_eq_true, if_false]
      rw [ih h]

theorem replaceFirst_eq_map (key : α → Nat) (k : Nat) (c : α) (l : List α)
    (hnd : (l.map key).Nodup) (b : α)
    (h : l.find? (fun x => key x == k) = some b) :
    replaceFirst (fun x => key x == k) c l =
      l.map (fun x => if key x == k then c else x) := by
  induction l with
  | nil => simp [List.find?] at h
  | cons x xs ih =>
    rw [List.map_cons, List.nodup_cons] at hnd
    by_cases hx : key x = k
    · simp only [replaceFirst, hx, beq_self_eq_true, if_true, List.map_cons]
      congr 1
      have hmap : xs.map (fun y => if (key y == k) = true then c else y) = xs.map id := by
        refine List.map_congr_left ?_
        intro y hy
        simp only [id_eq]
        by_cases hyk : key y = k
        · exact absurd (hx ▸ hyk ▸ List.mem_map.mpr ⟨y, hy, rfl⟩) hnd.1
        · simp [hyk]
      symm
      rw [hmap, List.map_id]
    · have hx' : (key x == k) = false := by simpa using hx
      rw [List.find?_cons_of_neg xs (by simp [hx'])] at h
      simp only [replaceFirst, hx', Bool.false_eq_true, if_false, List.map_cons]
      rw [ih hnd.2 h]

theorem find?_append_none (p : α → Bool) (l₁ l₂ : List α)
    (h : l₁.find? p = none) : (l₁ ++ l₂).find? p = l₂.find? p := by
  induction l₁ with
  | nil => simp
  | cons x xs ih =>
    rw [List.find?_eq_none] at h
    have hx : ¬p x = true := h x (by simp)
    rw [List.cons_append, List.find?_cons_of_neg _ hx]
    exact ih (List.find?_eq_none.mpr (fun y hy => h y (List.mem_cons_of_mem x hy)))

end ListLemmas

theorem length_nuevosAutores (base : Nat) (ns : List String) :
    (nuevosAutores base ns).length = ns.length := by
  induction ns generalizing base with
  | nil => rfl
  | cons n ns ih => simp [nuevosAutores, ih]

theorem map_id_nuevosAutores (base : Nat) (ns : List String) :
    (nuevosAutores base ns).map (·.id) = List.range' base ns.length := by
  induction ns generalizing base with
  | nil => rfl
  | cons n ns ih => simp [nuevosAutores, List.range'_succ, ih]

theorem find?_nuevosAutores (ns : List String) (base i : Nat) (hi : i < ns.length) :
    (nuevosAutores base ns).find? (fun a => a.id == base + i) =
      some ⟨base + i, ns.get ⟨i, hi⟩⟩ := by
  induction ns generalizing base i with
  | nil => simp at hi
  | cons n ns ih =>
    cases i with
    | zero =>
      rw [nuevosAutores, List.find?_cons_of_pos _ (by simp)]
      rfl
    | succ j =>
      rw [nuevosAutores, List.find?_cons_of_neg _ (by simp)]
      have hj : j < ns.length := by simpa using hi
      have := ih (base + 1) j hj
      rw [show base + 1 + j = base + (j + 1) by omega] at this
      rw [this]
      rfl

theorem length_nuevasFilasAutores (base : Int) (ns : List String) :
    (nuevasFilasAutores base ns).length = ns.length := by
  induction ns generalizing base with
  | nil => rfl
  | cons n ns ih => simp [nuevasFilasAutores, ih]

theorem map_nombre_nuevasFilasAutores (base : Int) (ns : List String) :
    (nuevasFilasAutores base ns).map (·.nombre) = ns := by
  induction ns generalizing base with
  | nil => rfl
  | cons n ns ih => simp [nuevasFilasAutores, ih]

theorem length_nuevasFilasLibros (base : Int) (es : List (String × Option Int × Option Int)) :
    (nuevasFilasLibros base es).length = es.length := by
  induction es generalizing base with
  | nil => rfl
  | cons e es ih => simp [nuevasFilasLibros, ih]

theorem map_titulo_nuevasFilasLibros (base : Int) (es : List (String × Option Int × Option Int)) :
    (nuevasFilasLibros base es).map (·.titulo) = es.map (fun e => .textv e.1) := by
  induction es generalizing base with
  | nil => rfl
  | cons e es ih => simp [nuevasFilasLibros, ih]

theorem length_nuevosLibros (base : Nat) (es : List (String × Int × Nat)) :
    (nuevosLibros base es).length = es.length := by
  induction es generalizing base with
  | nil => rfl
  | cons e es ih => simp [nuevosLibros, ih]

theorem updateRows_of_pointwise (u : UpdStmt) (f : SLibro → SLibro)
    (hf : ∀ r, updateRow u r = some (f r)) :
    ∀ l : List SLibro, updateRows u l = some (l.map f) := by
  intro l
  induction l with
  | nil => rfl
  | cons r rs ih => simp [updateRows, hf r, ih]

/-! ## Claims -/

/-- C1: the claim says that `update_book` stores any new title — quote
characters included — verbatim on exactly the targeted book without a
syntax error.  The SQL variant interpolates the title into the UPDATE
text, so the title `O'Brien` produces
`UPDATE libros SET titulo = 'O'Brien'WHERE libros.id = '1'`, whose
trailing quote is unterminated: on every store, the call raises an
sqlite3 operational error instead of storing the title. -/
theorem c1_quoted_title_raises_syntax_error (db : SDB) :
    actualizarLibro1 db 1 (some "O'Brien") none = .error "unrecognized token" := rfl

/-- C2 counterexample: in the document variant, `update_book` with no
fields supplied returns True on a store that holds no record at all, so
the success flag is not "true exactly when a record with that id
exists". -/
theorem c2_no_fields_counterexample :
    actualizarLibro4 mdb0 7 none none = (true, mdb0) ∧ mdb0.libros = [] :=
  ⟨rfl, rfl⟩

/-- C2 amended: with no fields supplied, the document variant's
`actualizar_libro` is a no-op on the data but returns True
unconditionally, whether or not a record with that id exists, and the
SQL variant executes the malformed statement `UPDATE libros SET ` and
raises a syntax error instead of returning a flag. -/
theorem c2_no_fields_amended :
    (∀ (db : MDB) (id_libro : Nat),
       actualizarLibro4 db id_libro none none = (true, db)) ∧
    (∀ (db : SDB) (id_libro : Int),
       actualizarLibro1 db id_libro none none = .error "syntax error") :=
  ⟨fun _ _ => rfl, fun _ _ => rfl⟩

/-- C10: in the document variant, when the stored title and year already
equal the supplied `new_title` and `new_year`, `update_book` reports
success via `modified_count` and therefore returns False even though
the record exists and the requested final state holds. -/
theorem c10_noop_update_reports_false (db : MDB) (id_libro : Nat) (b : MLibro)
    (h : db.libros.find? (fun x => x.id == id_libro) = some b) :
    actualizarLibro4 db id_libro (some b.titulo) (some b.anio) = (false, db) := by
  simp [actualizarLibro4, h]

/-- C10 witness: the store `mdb1` holds the book ⟨2, "T1", 1999, 1⟩ and
updating it to title "T1" and year 1999 returns False. -/
theorem c10_witness : actualizarLibro4 mdb1 2 (some "T1") (some 1999) = (false, mdb1) :=
  c10_noop_update_reports_false mdb1 2 ⟨2, "T1", 1999, 1⟩ (by decide)

/-- C4 counterexample: in the SQL variant a `delete_book` call on an
existing id removes the record but returns None — it returns no success
flag at all, so no "positive result" is reported. -/
theorem c4_delete_returns_none_counterexample :
    (eliminarLibro1 sdb1 1).1 = none ∧
    (eliminarLibro1 sdb1 1).2.libros = [⟨2, .textv "T2", .intv 2001, .intv 1⟩] :=
  ⟨rfl, rfl⟩

/-- C4 amended: the document variant's `eliminar_libro` behaves exactly
as claimed — False and an unchanged store on a missing id; True, record
count down by one and the id no longer retrievable on an existing id —
while the SQL variant removes the matching rows but returns None rather
than a flag. -/
theorem c4_delete_book_amended :
    (∀ (db : MDB) (id_libro : Nat),
       db.libros.find? (fun b => b.id == id_libro) = none →
       eliminarLibro4 db id_libro = (false, db)) ∧
    (∀ (db : MDB) (id_libro : Nat) (b : MLibro),
       (db.libros.map (·.id)).Nodup →
       db.libros.find? (fun x => x.id == id_libro) = some b →
       (eliminarLibro4 db id_libro).1 = true ∧
       (eliminarLibro4 db id_libro).2.libros.length + 1 = db.libros.length ∧
       (eliminarLibro4 db id_libro).2.libros.find? (fun x => x.id == id_libro) = none) ∧
    (∀ (db : SDB) (id_libro : Int),
       (eliminarLibro1 db id_libro).1 = none ∧
       (eliminarLibro1 db id_libro).2.libros =
         db.libros.filter (fun b => !(b.id == id_libro))) := by
  refine ⟨?_, ?_, ?_⟩
  · intro db id h
    simp [eliminarLibro4, h]
  · intro db id b hnd h
    refine ⟨?_, ?_, ?_⟩
    · simp [eliminarLibro4, h]
    · simp only [eliminarLibro4, h]
      exact length_removeFirst _ _ _ h
    · simp only [eliminarLibro4, h]
      exact find?_removeFirst_key (fun x => x.id) id db.libros b hnd h
  · intro db id
    exact ⟨rfl, rfl⟩

/-- C4 witness: on `mdb1`, deleting the missing id 99 returns False with
the store unchanged, and deleting the present id 2 returns True, drops
the record count from 1 to 0, and leaves the id unretrievable. -/
theorem c4_witness :
    eliminarLibro4 mdb1 99 = (false, mdb1) ∧
    ((eliminarLibro4 mdb1 2).1 = true ∧
     (eliminarLibro4 mdb1 2).2.libros.length + 1 = mdb1.libros.length ∧
     (eliminarLibro4 mdb1 2).2.libros.find? (fun x => x.id == 2) = none) :=
  ⟨c4_delete_book_amended.1 mdb1 99 (by decide),
   c4_delete_book_amended.2.1 mdb1 2 ⟨2, "T1", 1999, 1⟩ (by decide) (by decide)⟩

/-- C6 counterexample: the store `sdb2` holds the author "Ana" with zero
books, and the SQL variant's `buscar_libros_por_autor` returns None —
not an empty sequence. -/
theorem c6_zero_books_counterexample :
    buscarLibrosPorAutor1 sdb2 "Ana" = none ∧
    sdb2.autores = [⟨1, "Ana"⟩] ∧ sdb2.libros = [] :=
  ⟨rfl, rfl, rfl⟩

/-- C6 amended: the document variant returns an empty list both when no
author has the searched name and when the matching author has zero
books; the SQL variant returns None (not an empty sequence) whenever
the join produces no row. -/
theorem c6_find_books_amended :
    (∀ (db : MDB) (nombre : String),
       db.autores.find? (fun a => a.nombre == nombre) = none →
       buscarLibrosPorAutor4 db nombre = []) ∧
    (∀ (db : MDB) (nombre : String) (a : MAutor),
       db.autores.find? (fun x => x.nombre == nombre) = some a →
       db.libros.filter (fun b => b.autor_id == a.id) = [] →
       buscarLibrosPorAutor4 db nombre = []) ∧
    (∀ (db : SDB) (nombre : String),
       (∀ a ∈ db.autores, a.nombre = nombre →
          db.libros.filter (fun b => b.autor_id == SVal.intv a.id) = []) →
       buscarLibrosPorAutor1 db nombre = none) := by
  refine ⟨?_, ?_, ?_⟩
  · intro db nombre h
    simp [buscarLibrosPorAutor4, h]
  · intro db nombre a h hf
    simp [buscarLibrosPorAutor4, h, hf, sortByAnio]
  · intro db nombre h
    have key : ∀ l : List SAutor,
        (∀ a ∈ l, a.nombre = nombre →
           db.libros.filter (fun b => b.autor_id == SVal.intv a.id) = []) →
        filasPorAutor db nombre l = [] := by
      intro l
      induction l with
      | nil => intro _; rfl
      | cons a rest ih =>
        intro hl
        simp only [filasPorAutor]
        rw [ih (fun y hy hn => hl y (List.mem_cons_of_mem a hy) hn)]
        by_cases ha : a.nombre = nombre
        · simp [ha, hl a (by simp) ha]
        · simp [ha]
    simp [buscarLibrosPorAutor1, key db.autores h]

/-- C6 witness: an empty document store has no author "X", and `sdb2`
satisfies the zero-book hypothesis for "Ana". -/
theorem c6_witness :
    buscarLibrosPorAutor4 mdb0 "X" = [] ∧
    buscarLibrosPorAutor4 mdb1 "Nadie" = [] ∧
    buscarLibrosPorAutor1 sdb2 "Ana" = none :=
  ⟨c6_find_books_amended.1 mdb0 "X" (by decide),
   c6_find_books_amended.1 mdb1 "Nadie" (by decide),
   c6_find_books_amended.2.2 sdb2 "Ana" (by decide)⟩

/-- C7 counterexample: the SQL variant's `insertar_autores` returns None
— no sequence of identities at all — on the insertion of two authors. -/
theorem c7_add_authors_counterexample :
    (insertarAutores1 sdb0 ["A", "B"]).1 = none := rfl

/-- C7 amended: the document variant's `insertar_autores` inserts exactly
one record per name without de-duplication and returns the consecutive
fresh identities in insertion order, each resolving to a record whose
name round-trips; the SQL variant inserts one row per name in insertion
order but returns None instead of the identities. -/
theorem c7_add_authors_amended :
    (∀ (db : MDB) (ns : List String),
       (∀ a ∈ db.autores, a.id < db.nextId) →
       (insertarAutores4 db ns).1 = List.range' db.nextId ns.length ∧
       (insertarAutores4 db ns).2.autores.length = db.autores.length + ns.length ∧
       (∀ i, (hi : i < ns.length) →
          (insertarAutores4 db ns).2.autores.find? (fun a => a.id == db.nextId + i) =
            some ⟨db.nextId + i, ns.get ⟨i, hi⟩⟩)) ∧
    (∀ (db : SDB) (ns : List String),
       (insertarAutores1 db ns).1 = none ∧
       (insertarAutores1 db ns).2.autores =
         db.autores ++ nuevasFilasAutores db.nextAutorId ns ∧
       (nuevasFilasAutores db.nextAutorId ns).map (·.nombre) = ns ∧
       (nuevasFilasAutores db.nextAutorId ns).length = ns.length) := by
  refine ⟨?_, ?_⟩
  · intro db ns hwf
    refine ⟨?_, ?_, ?_⟩
    · simp only [insertarAutores4]
      exact map_id_nuevosAutores db.nextId ns
    · simp [insertarAutores4, length_nuevosAutores]
    · intro i hi
      simp only [insertarAutores4]
      rw [find?_append_none]
      · exact find?_nuevosAutores ns db.nextId i hi
      · rw [List.find?_eq_none]
        intro a ha
        simp only [Bool.not_eq_true, beq_eq_false_iff_ne, ne_eq]
        have := hwf a ha
        omega
  · intro db ns
    exact ⟨rfl, rfl, map_nombre_nuevasFilasAutores db.nextAutorId ns,
           length_nuevasFilasAutores db.nextAutorId ns⟩

/-- C7 witness: inserting ["B", "C"] into `mdb1` (fresh counter 3)
returns the identities [3, 4] in insertion order, grows the collection
from 1 to 3 records, and id 3 resolves to the record named "B". -/
theorem c7_witness :
    (insertarAutores4 mdb1 ["B", "C"]).1 = List.range' mdb1.nextId 2 ∧
    (insertarAutores4 mdb1 ["B", "C"]).2.autores.length = mdb1.autores.length + 2 ∧
    (insertarAutores4 mdb1 ["B", "C"]).2.autores.find? (fun a => a.id == mdb1.nextId + 0) =
      some ⟨mdb1.nextId + 0, "B"⟩ := by
  have h := c7_add_authors_amended.1 mdb1 ["B", "C"] (by decide)
  exact ⟨h.1, h.2.1, h.2.2 0 (by decide)⟩

/-- C8 counterexample: the REST variant's POST /books rejects an entry
whose `author_id` references no existing author — it answers 404 and
inserts nothing, so it is not true that every variant inserts without
checking the referenced author. -/
theorem c8_dangling_author_counterexample :
    addBookB bdb0 "T" 1 none = (⟨404, .notFound⟩, bdb0) := rfl

/-- C8 amended: the SQL and document variants insert every supplied
entry with no check on `author_id` (record count always grows by the
number of entries), but the REST variant's POST /books checks the
referenced author: it answers 404 leaving the store unchanged when the
author is missing, and 201 inserting the book when it exists. -/
theorem c8_add_books_amended :
    (∀ (db : SDB) (entries : List (String × Option Int × Option Int)),
       (insertarLibros1 db entries).2.libros.length =
         db.libros.length + entries.length ∧
       (nuevasFilasLibros db.nextLibroId entries).map (·.titulo) =
         entries.map (fun e => .textv e.1)) ∧
    (∀ (db : MDB) (entries : List (String × Int × Nat)),
       (insertarLibros4 db entries).2.libros.length =
         db.libros.length + entries.length ∧
       (insertarLibros4 db entries).1.length = entries.length) ∧
    (∀ (db : BDB) (t : String) (aid : Nat) (y : Option Int),
       db.authors.find? (fun a => a.id == aid) = none →
       addBookB db t aid y = (⟨404, .notFound⟩, db)) ∧
    (∀ (db : BDB) (t : String) (aid : Nat) (y : Option Int) (a : BAuthor),
       db.authors.find? (fun x => x.id == aid) = some a →
       addBookB db t aid y =
         (⟨201, .bookJson ⟨db.nextBookId, t, y, aid⟩⟩,
          { db with
            books := db.books ++ [⟨db.nextBookId, t, y, aid⟩],
            nextBookId := db.nextBookId + 1 })) := by
  refine ⟨?_, ?_, ?_, ?_⟩
  · intro db entries
    constructor
    · simp [insertarLibros1, length_nuevasFilasLibros]
    · exact map_titulo_nuevasFilasLibros db.nextLibroId entries
  · intro db entries
    constructor
    · simp [insertarLibros4, length_nuevosLibros]
    · simp [insertarLibros4, length_nuevosLibros]
  · intro db t aid y h
    simp [addBookB, h]
  · intro db t aid y a h
    simp [addBookB, h]

/-- C8 witness: on `bdb0` a dangling reference is rejected with 404, and
on `bdb1` (author 1 present) the same entry is inserted with 201. -/
theorem c8_witness :
    addBookB bdb0 "T" 1 none = (⟨404, .notFound⟩, bdb0) ∧
    addBookB bdb1 "T" 1 none =
      (⟨201, .bookJson ⟨bdb1.nextBookId, "T", none, 1⟩⟩,
       { bdb1 with
         books := bdb1.books ++ [⟨bdb1.nextBookId, "T", none, 1⟩],
         nextBookId := bdb1.nextBookId + 1 }) :=
  ⟨c8_add_books_amended.2.2.1 bdb0 "T" 1 none (by decide),
   c8_add_books_amended.2.2.2 bdb1 "T" 1 none ⟨1, "Ana"⟩ (by decide)⟩

/-- C9 (confirmed): in the REST surface, every successful creation
(POST /authors, POST /books) answers 201 with the created record's
JSON, every successful deletion (DELETE /books/(id)) answers 204 with
an empty body, and every request whose path id does not resolve —
GET /authors/(id), GET /books/(id), DELETE /books/(id),
PUT /books/(id) — answers 404. -/
theorem c9_http_status_codes :
    (∀ (db : BDB) (name : String),
       (addAuthorB db name).1 = ⟨201, .authorJson ⟨db.nextAuthorId, name⟩⟩) ∧
    (∀ (db : BDB) (t : String) (aid : Nat) (y : Option Int) (a : BAuthor),
       db.authors.find? (fun x => x.id == aid) = some a →
       (addBookB db t aid y).1 = ⟨201, .bookJson ⟨db.nextBookId, t, y, aid⟩⟩) ∧
    (∀ (db : BDB) (id : Nat) (b : BBook),
       db.books.find? (fun x => x.id == id) = some b →
       (deleteBookB db id).1 = ⟨204, .empty⟩) ∧
    (∀ (db : BDB) (id : Nat),
       db.authors.find? (fun a => a.id == id) = none →
       getAuthorB db id = ⟨404, .notFound⟩) ∧
    (∀ (db : BDB) (id : Nat),
       db.books.find? (fun b => b.id == id) = none →
       getBookB db id = ⟨404, .notFound⟩ ∧
       (deleteBookB db id).1 = ⟨404, .notFound⟩ ∧
       ∀ (dT : Option (Option String)) (dY : Option (Option Int)),
         (updateBookB db id dT dY).1 = ⟨404, .notFound⟩) := by
  refine ⟨?_, ?_, ?_, ?_, ?_⟩
  · intro db name
    rfl
  · intro db t aid y a h
    simp [addBookB, h]
  · intro db id b h
    simp [deleteBookB, h]
  · intro db id h
    simp [getAuthorB, h]
  · intro db id h
    refine ⟨?_, ?_, ?_⟩
    · simp [getBookB, h]
    · simp [deleteBookB, h]
    · intro dT dY
      simp [updateBookB, h]

/-- C9 witness: concrete instances on `bdb0` / `bdb1` of each status
rule — 201 on both creations, 204 on the deletion, 404 on each
unresolved path id. -/
theorem c9_witness :
    (addAuthorB bdb0 "Ana").1 = ⟨201, .authorJson ⟨bdb0.nextAuthorId, "Ana"⟩⟩ ∧
    (addBookB bdb1 "T" 1 (some 2000)).1 =
      ⟨201, .bookJson ⟨bdb1.nextBookId, "T", some 2000, 1⟩⟩ ∧
    (deleteBookB bdb1 1).1 = ⟨204, .empty⟩ ∧
    getAuthorB bdb1 9 = ⟨404, .notFound⟩ ∧
    getBookB bdb1 9 = ⟨404, .notFound⟩ ∧
    (deleteBookB bdb1 9).1 = ⟨404, .notFound⟩ ∧
    (updateBookB bdb1 9 (some (some "X")) none).1 = ⟨404, .notFound⟩ := by
  have h5 := c9_http_status_codes.2.2.2.2 bdb1 9 (by decide)
  exact ⟨c9_http_status_codes.1 bdb0 "Ana",
         c9_http_status_codes.2.1 bdb1 "T" 1 (some 2000) ⟨1, "Ana"⟩ (by decide),
         c9_http_status_codes.2.2.1 bdb1 1 ⟨1, "T1", some 1999, 1⟩ (by decide),
         c9_http_status_codes.2.2.2.1 bdb1 9 (by decide),
         h5.1, h5.2.1, h5.2.2 (some (some "X")) none⟩

/-- C3 counterexample: in the SQL variant, an invocation of the grouped
insert whose book INSERT fails rolls the store back but returns None —
the failure is only printed, no failure flag is returned. -/
theorem c3_transaction_counterexample :
    (ejemploTransaccion1 sdb0 false true).1 = none ∧
    (ejemploTransaccion1 sdb0 false true).2 = sdb0 :=
  ⟨rfl, rfl⟩

/-- C3 amended: the document variant's grouped insert is
atomic-or-nothing with a returned flag — provided the compensating
cleanup deletes themselves succeed and the store holds no record under
the fresh id: it either returns True having inserted the author and
both books, or returns False with the visible collections unchanged.
The SQL variant rolls back on failure (all-or-nothing on the store) but
always returns None: failure is printed, not returned. -/
theorem c3_grouped_insert_amended :
    (∀ (db : MDB) (o : MOracle),
       (∀ b ∈ db.libros, b.autor_id ≠ db.nextId) →
       (∀ a ∈ db.autores, a.id ≠ db.nextId) →
       o.falloLimpieza = false →
       ((ejemploTransaccion4 db o).1 = true ∧
          (ejemploTransaccion4 db o).2.autores =
            db.autores ++ [⟨db.nextId, "J.R.R. Tolkien"⟩] ∧
          (ejemploTransaccion4 db o).2.libros =
            db.libros ++ [⟨db.nextId + 1, "El hobbit", 1937, db.nextId⟩,
                          ⟨db.nextId + 2, "El Señor de los Anillos", 1954, db.nextId⟩]) ∨
       ((ejemploTransaccion4 db o).1 = false ∧
          (ejemploTransaccion4 db o).2.autores = db.autores ∧
          (ejemploTransaccion4 db o).2.libros = db.libros)) ∧
    (∀ (db : SDB) (falloAutor falloLibro : Bool),
       (ejemploTransaccion1 db falloAutor falloLibro).1 = none ∧
       ((ejemploTransaccion1 db falloAutor falloLibro).2 = db ∨
        (ejemploTransaccion1 db falloAutor falloLibro).2 =
          { db with
            autores := db.autores ++ [⟨db.nextAutorId, "J.R.R. Tolkien"⟩],
            libros := db.libros ++ [⟨db.nextLibroId, .textv "El hobbit", .intv 1937, .intv 4⟩],
            nextAutorId := db.nextAutorId + 1,
            nextLibroId := db.nextLibroId + 1 })) := by
  refine ⟨?_, ?_⟩
  · intro db o h1 h2 h3
    rcases o with ⟨fa, fl, fc⟩
    have hfc : fc = false := h3
    subst hfc
    cases fa with
    | true => exact Or.inr ⟨rfl, rfl, rfl⟩
    | false =>
      cases fl with
      | none => exact Or.inl ⟨rfl, rfl, rfl⟩
      | some k =>
        refine Or.inr ⟨rfl, ?_, ?_⟩
        · exact removeFirst_append_right (fun a => a.id == db.nextId) db.autores
            ⟨db.nextId, "J.R.R. Tolkien"⟩
            (fun x hx => by simpa using h2 x hx) (by simp)
        · have hl : db.libros.filter (fun b => !(b.autor_id == db.nextId)) = db.libros :=
            List.filter_eq_self.mpr (fun b hb => by simpa using h1 b hb)
          have ht : (([⟨db.nextId + 1, "El hobbit", 1937, db.nextId⟩,
                       ⟨db.nextId + 1 + 1, "El Señor de los Anillos", 1954, db.nextId⟩] :
                      List MLibro).take k).filter (fun b => !(b.autor_id == db.nextId)) = [] := by
            rw [List.filter_eq_nil_iff]
            intro b hb
            have hb' := List.take_subset k _ hb
            simp only [List.mem_cons, List.not_mem_nil, or_false] at hb'
            rcases hb' with h | h
            · subst h; simp
            · subst h; simp
          show (db.libros ++ ([⟨db.nextId + 1, "El hobbit", 1937, db.nextId⟩,
                  ⟨db.nextId + 1 + 1, "El Señor de los Anillos", 1954, db.nextId⟩] :
                 List MLibro).take k).filter (fun b => !(b.autor_id == db.nextId)) = db.libros
          rw [List.filter_append, hl, ht, List.append_nil]
  · intro db falloAutor falloLibro
    cases falloAutor with
    | true => exact ⟨rfl, Or.inl rfl⟩
    | false =>
      cases falloLibro with
      | true => exact ⟨rfl, Or.inl rfl⟩
      | false => exact ⟨rfl, Or.inr rfl⟩

/-- C3 witness: on `mdb1` (fresh id 3, no record under it), an
invocation whose insert_many fails after one book ends with the flag
False and the original collections. -/
theorem c3_witness :
    ((ejemploTransaccion4 mdb1 ⟨false, some 1, false⟩).1 = true ∧
       (ejemploTransaccion4 mdb1 ⟨false, some 1, false⟩).2.autores =
         mdb1.autores ++ [⟨mdb1.nextId, "J.R.R. Tolkien"⟩] ∧
       (ejemploTransaccion4 mdb1 ⟨false, some 1, false⟩).2.libros =
         mdb1.libros ++ [⟨mdb1.nextId + 1, "El hobbit", 1937, mdb1.nextId⟩,
                         ⟨mdb1.nextId + 2, "El Señor de los Anillos", 1954, mdb1.nextId⟩]) ∨
    ((ejemploTransaccion4 mdb1 ⟨false, some 1, false⟩).1 = false ∧
       (ejemploTransaccion4 mdb1 ⟨false, some 1, false⟩).2.autores = mdb1.autores ∧
       (ejemploTransaccion4 mdb1 ⟨false, some 1, false⟩).2.libros = mdb1.libros) :=
  c3_grouped_insert_amended.1 mdb1 ⟨false, some 1, false⟩ (by decide) (by decide) rfl

theorem executeConsulta_parsed (q : String) (ts : List Tok) (u : UpdStmt) (db : SDB)
    (htok : tokenize q = some ts) (hpar : parseUpdate ts = some u) :
    executeConsulta q db =
      match updateRows u db.libros with
      | none => .error "no such column"
      | some ls => .ok { db with libros := ls } := by
  unfold executeConsulta
  simp only [htok, hpar]

/-- C5 counterexample: in the REST variant, a PUT whose body supplies
`year` as null changes the stored year to null — a field supplied as
null is changed, contradicting the claim. -/
theorem c5_null_field_counterexample :
    bdb1.books = [⟨1, "T1", some 1999, 1⟩] ∧
    (updateBookB bdb1 1 none (some none)).2.books = [⟨1, "T1", none, 1⟩] :=
  ⟨rfl, rfl⟩

/-- C5 amended: a partial update changes exactly the fields whose key is
supplied — including a key supplied with a null value, which is stored
— and leaves absent fields and all other records unchanged; in the SQL
variant, updating only the year (shown for year 2023 on book id 1 over
an arbitrary store) changes the year of exactly the matching rows and
leaves every title unchanged. -/
theorem c5_partial_update_amended :
    (∀ (b : BBook) (dY : Option (Option Int)),
       (appliedBookUpdate b none dY).title = b.title) ∧
    (∀ (b : BBook) (dT : Option (Option String)),
       (appliedBookUpdate b dT none).year = b.year) ∧
    (∀ (b : BBook) (y : Option Int),
       (appliedBookUpdate b none (some y)).year = y) ∧
    (∀ (db : BDB) (book_id : Nat) (dT : Option (Option String))
       (dY : Option (Option Int)) (b : BBook),
       (db.books.map (·.id)).Nodup →
       db.books.find? (fun x => x.id == book_id) = some b →
       dT ≠ some none →
       updateBookB db book_id dT dY =
         (⟨200, .bookJson (appliedBookUpdate b dT dY)⟩,
          { db with books := db.books.map fun x =>
              if x.id == book_id then appliedBookUpdate b dT dY else x })) ∧
    (∀ db : SDB, actualizarLibro1 db 1 none (some 2023) =
       .ok { db with libros := db.libros.map fun r =>
           if r.id == 1 then { r with anio := .intv 2023 } else r }) := by
  refine ⟨fun _ _ => rfl, fun _ _ => rfl, fun _ _ => rfl, ?_, ?_⟩
  · intro db book_id dT dY b hnd h hT
    have hrep := replaceFirst_eq_map (fun x : BBook => x.id) book_id
      (appliedBookUpdate b dT dY) db.books hnd b h
    rcases dT with _ | ot
    · simp only [updateBookB, h]
      rw [hrep]
    · rcases ot with _ | t
      · exact absurd rfl hT
      · simp only [updateBookB, h]
        rw [hrep]
  · intro db
    have ht : tokenize "UPDATE libros SET anio = '2023'WHERE libros.id = '1'" =
        some [Tok.word "UPDATE", Tok.word "libros", Tok.word "SET", Tok.word "anio",
              Tok.eq, Tok.strlit "2023", Tok.word "WHERE", Tok.word "libros", Tok.dot,
              Tok.word "id", Tok.eq, Tok.strlit "1"] := rfl
    have hp : parseUpdate [Tok.word "UPDATE", Tok.word "libros", Tok.word "SET",
              Tok.word "anio", Tok.eq, Tok.strlit "2023", Tok.word "WHERE",
              Tok.word "libros", Tok.dot, Tok.word "id", Tok.eq, Tok.strlit "1"] =
        some ⟨[⟨"anio", SVal.textv "2023"⟩], some ("id", SVal.textv "1")⟩ := rfl
    have hrow : ∀ r : SLibro,
        updateRow ⟨[⟨"anio", SVal.textv "2023"⟩], some ("id", SVal.textv "1")⟩ r =
          some (if r.id == 1 then { r with anio := .intv 2023 } else r) := by
      intro r
      have hget : r.getCol "id" = some (SVal.intv r.id) := rfl
      have happ : applyAssigns r [⟨"anio", SVal.textv "2023"⟩] =
          some { r with anio := SVal.intv 2023 } := rfl
      have haff1 : intAffinity (SVal.textv "1") = SVal.intv 1 := rfl
      by_cases hid : r.id = 1
      · have hcond : r.matchesCond "id" (SVal.textv "1") = some true := by
          simp [SLibro.matchesCond, hget, haff1, hid]
        simp only [updateRow, hcond, happ]
        simp [hid]
      · have hcond : r.matchesCond "id" (SVal.textv "1") = some false := by
          simp [SLibro.matchesCond, hget, haff1, hid]
        simp only [updateRow, hcond]
        have : (r.id == 1) = false := by simpa using hid
        simp [this]
    show executeConsulta (buildUpdateConsulta 1 none (some 2023)) db = _
    have hq : buildUpdateConsulta 1 none (some 2023) =
        "UPDATE libros SET anio = '2023'WHERE libros.id = '1'" := rfl
    rw [hq, executeConsulta_parsed _ _ _ db ht hp,
        updateRows_of_pointwise _ _ hrow db.libros]

/-- C5 witness: on `bdb1`, a PUT supplying only the title stores the new
title, keeps the year, and answers 200 with the updated record. -/
theorem c5_witness :
    updateBookB bdb1 1 (some (some "X")) none =
      (⟨200, .bookJson (appliedBookUpdate ⟨1, "T1", some 1999, 1⟩ (some (some "X")) none)⟩,
       { bdb1 with books := bdb1.books.map fun x =>
           if x.id == 1 then
             appliedBookUpdate ⟨1, "T1", some 1999, 1⟩ (some (some "X")) none
           else x }) :=
  c5_partial_update_amended.2.2.2.1 bdb1 1 (some (some "X")) none ⟨1, "T1", some 1999, 1⟩
    (by decide) (by decide) (by decide)
